import Mathlib

/-!
Shallow embedding of the WebGL batch-pipeline core
(`src/renderer/webgl/WebGLPipeline.js`).

Numbers held in JS variables are modelled as rationals (`ℚ`); counters,
byte sizes, texture handles, texture units and packed 32-bit tint values
are modelled as naturals.  The backing vertex `ArrayBuffer`, together
with its overlaid `Float32Array` / `Uint32Array` views, is modelled as a
total function from element index to a `Slot` that records which view
last wrote the element.  GPU-side effects (buffer uploads, draw calls,
resource creation, program/texture binds) are modelled as an appended
trace of `GLCmd` commands.
-/

namespace PhaserWebGL

/-- One element of the vertex data buffer: written through the
`Float32Array` view, through the `Uint32Array` view, or never written. -/
inductive Slot where
  | f32 (q : ℚ)
  | u32 (n : ℕ)
  | uninit
deriving DecidableEq

/-- The fields of a `WebGLShader` unit that the pipeline reads: an
identity (JS compares shader objects by reference), the compiled program
handle, and the vertex byte size / component count computed by the
shader from its attribute list. -/
structure WebGLShader where
  sid : ℕ
  program : ℕ
  vertexSize : ℕ
  vertexComponentCount : ℕ
deriving DecidableEq, Inhabited

/-- Observable GPU/renderer commands issued by the pipeline, in order. -/
inductive GLCmd where
  | bufferData (byteLength : ℕ)
  | bufferSubData (byteLength : ℕ)
  | drawArrays (topology first count : ℕ)
  | createTexture (w h : ℚ)
  | createFramebuffer (w h : ℚ)
  | createVertexBuffer (byteLength : ℕ)
  | setVertexBuffer
  | resetTextures
  | bindProgram (program : ℕ)
  | bindTexture (texture unit : ℕ)
deriving DecidableEq

/-- The arguments of one `batchVert` call, kept as a ghost log record so
that theorems can speak about the sequence of appended vertices. -/
structure VertRec where
  x : ℚ
  y : ℚ
  u : ℚ
  v : ℚ
  unit : ℕ
  tintEffect : ℚ
  tint : ℕ
deriving DecidableEq

/-- The pipeline state: the `WebGLPipeline` instance fields used by the
batching core, the renderer-level current program and texture-unit
table it touches, the vertex buffer contents, a ghost vertex log and
the trace of issued GPU commands. -/
structure PState where
  vertexCount : ℕ
  vertexCapacity : ℕ
  /-- `vertexData.byteLength` -/
  vertexDataLen : ℕ
  shaders : List WebGLShader
  currentShader : WebGLShader
  /-- `renderer.currentProgram` -/
  currentProgram : ℕ
  currentUnit : ℕ
  topology : ℕ
  hasBooted : Bool
  /-- `renderer.whiteTexture.glTexture` -/
  whiteTexture : ℕ
  /-- overlaid element view of `vertexData` -/
  vbuf : ℕ → Slot
  /-- ghost log of `batchVert` arguments -/
  vlog : List VertRec
  /-- trace of GPU commands issued so far -/
  cmds : List GLCmd
  /-- renderer texture-unit table: `texUnits[i]` is bound to unit `i` -/
  texUnits : List ℕ

/-- `WebGLPipeline.shouldFlush(amount)`; `none` models an omitted
`amount` argument, defaulted to `0` by the
`if (amount === undefined) { amount = 0; }` line. -/
def shouldFlush (st : PState) (amount : Option ℕ) : Bool :=
  let amount := amount.getD 0
  decide (st.vertexCount + amount ≥ st.vertexCapacity)

/-- `WebGLPipeline.batchVert(x, y, u, v, unit, tintEffect, tint)`:
seven sequential writes starting at element offset
`vertexCount * currentShader.vertexComponentCount` (the JS code starts
at that offset minus one and pre-increments seven times), the first six
through the `Float32Array` view and the last through the `Uint32Array`
view, then `vertexCount++`. -/
def batchVert (st : PState) (x y u v : ℚ) (unit : ℕ) (tintEffect : ℚ)
    (tint : ℕ) : PState :=
  let off := st.vertexCount * st.currentShader.vertexComponentCount
  let b := st.vbuf
  let b := Function.update b off (Slot.f32 x)
  let b := Function.update b (off + 1) (Slot.f32 y)
  let b := Function.update b (off + 2) (Slot.f32 u)
  let b := Function.update b (off + 3) (Slot.f32 v)
  let b := Function.update b (off + 4) (Slot.f32 (unit : ℚ))
  let b := Function.update b (off + 5) (Slot.f32 tintEffect)
  let b := Function.update b (off + 6) (Slot.u32 tint)
  { st with
    vbuf := b
    vlog := st.vlog ++ [⟨x, y, u, v, unit, tintEffect, tint⟩]
    vertexCount := st.vertexCount + 1 }

/-- `WebGLPipeline.flush(isPostFlush)`: no-op when `vertexCount` is 0;
otherwise upload the whole buffer (`gl.bufferData`) when the batch is
exactly full, or the byte range `[0, vertexCount * vertexSize)`
(`gl.bufferSubData`) otherwise, issue one `gl.drawArrays` over
`vertexCount` vertices with the pipeline topology, and reset
`vertexCount` to 0.  The `onBeforeFlush` / `onAfterFlush` hooks are
empty in this class. -/
def flush (st : PState) : PState :=
  if 0 < st.vertexCount then
    let vertexSize := st.currentShader.vertexSize
    let upload :=
      if st.vertexCount = st.vertexCapacity then
        GLCmd.bufferData st.vertexDataLen
      else
        GLCmd.bufferSubData (st.vertexCount * vertexSize)
    { st with
      cmds := st.cmds ++ [upload, GLCmd.drawArrays st.topology 0 st.vertexCount]
      vertexCount := 0 }
  else
    st

/-- Modelled from the spec: the texture-unit assignment performed by
`setTexture2D` (the renderer's / Multi Pipeline's method, whose source
is not part of this repository slice).  Per the spec's "texture-unit
cursor": an already-bound texture keeps its unit, a new texture is
bound to the next free unit, and the assigned unit index is returned. -/
def setTexture2D (st : PState) (texture : ℕ) : ℕ × PState :=
  let i := st.texUnits.indexOf texture
  if i < st.texUnits.length then
    (i, st)
  else
    (st.texUnits.length,
     { st with
       texUnits := st.texUnits ++ [texture]
       cmds := st.cmds ++ [GLCmd.bindTexture texture st.texUnits.length] })

/-- `WebGLPipeline.batchQuad(...)`: default the omitted `unit` argument
to `currentUnit`; if `shouldFlush(6)` then flush and rebind the given
texture (taking its newly assigned unit); then append the six vertices
TL, BL, BR, TL, BR, TR; return whether the flush branch ran. -/
def batchQuad (st : PState) (x0 y0 x1 y1 x2 y2 x3 y3 u0 v0 u1 v1 : ℚ)
    (tintTL tintTR tintBL tintBR : ℕ) (tintEffect : ℚ) (texture : ℕ)
    (unitArg : Option ℕ) : PState × Bool :=
  let unit := unitArg.getD st.currentUnit
  let hasFlushed := shouldFlush st (some 6)
  let unit := if hasFlushed then (setTexture2D (flush st) texture).1 else unit
  let st := if hasFlushed then (setTexture2D (flush st) texture).2 else st
  let st := batchVert st x0 y0 u0 v0 unit tintEffect tintTL
  let st := batchVert st x1 y1 u0 v1 unit tintEffect tintBL
  let st := batchVert st x2 y2 u1 v1 unit tintEffect tintBR
  let st := batchVert st x0 y0 u0 v0 unit tintEffect tintTL
  let st := batchVert st x2 y2 u1 v1 unit tintEffect tintBR
  let st := batchVert st x3 y3 u1 v0 unit tintEffect tintTR
  (st, hasFlushed)

/-- `WebGLPipeline.batchTri(...)`: same overflow-then-write discipline
for three vertices. -/
def batchTri (st : PState) (x0 y0 x1 y1 x2 y2 u0 v0 u1 v1 : ℚ)
    (tintTL tintTR tintBL : ℕ) (tintEffect : ℚ) (texture : ℕ)
    (unitArg : Option ℕ) : PState × Bool :=
  let unit := unitArg.getD st.currentUnit
  let hasFlushed := shouldFlush st (some 3)
  let unit := if hasFlushed then (setTexture2D (flush st) texture).1 else unit
  let st := if hasFlushed then (setTexture2D (flush st) texture).2 else st
  let st := batchVert st x0 y0 u0 v0 unit tintEffect tintTL
  let st := batchVert st x1 y1 u0 v1 unit tintEffect tintTR
  let st := batchVert st x2 y2 u1 v1 unit tintEffect tintBL
  (st, hasFlushed)

/-- Modelled from the spec: `Utils.getTintAppendFloatAlphaAndSwap`
(its source file is not part of this repository slice) — "derives a
tint from color+alpha" as one packed 32-bit value: the alpha byte in
the top byte and the red/blue bytes of the color swapped. -/
def getTintAppendFloatAlphaAndSwap (color : ℕ) (alpha : ℚ) : ℕ :=
  let r := color / 65536 % 256
  let g := color / 256 % 256
  let b := color % 256
  let a := (⌊alpha * 255⌋).toNat % 256
  a * 16777216 + b * 65536 + g * 256 + r

/-- `WebGLPipeline.drawFillRect(x, y, width, height, color, alpha,
texture, flipUV)`: default `texture` to the renderer's white texture
and `flipUV` to `true`; floor `x` and `y`, then floor the already
floored `x` plus `width` (resp. `y` plus `height`); assign a texture
unit, derive the tint, pick UVs (0,0)-(1,1) or the vertically flipped
pair, and emit one `batchQuad` (whose boolean result is dropped). -/
def drawFillRect (st : PState) (x y width height : ℚ) (color : ℕ)
    (alpha : ℚ) (textureArg : Option ℕ) (flipUVArg : Option Bool) : PState :=
  let texture := textureArg.getD st.whiteTexture
  let flipUV := flipUVArg.getD true
  let x := (⌊x⌋ : ℚ)
  let y := (⌊y⌋ : ℚ)
  let xw := (⌊x + width⌋ : ℚ)
  let yh := (⌊y + height⌋ : ℚ)
  let unit := (setTexture2D st texture).1
  let st := (setTexture2D st texture).2
  let tint := getTintAppendFloatAlphaAndSwap color alpha
  let u0 : ℚ := 0
  let v0 : ℚ := if flipUV then 1 else 0
  let u1 : ℚ := 1
  let v1 : ℚ := if flipUV then 0 else 1
  (batchQuad st x y x yh xw yh xw y u0 v0 u1 v1
    tint tint tint tint 0 texture (some unit)).1

/-- `WebGLShader.bind` as observed by the pipeline state: the shader's
program becomes the renderer's current program and a bind command is
issued. -/
def bindShaderProgram (st : PState) (shader : WebGLShader) : PState :=
  { st with
    currentProgram := shader.program
    cmds := st.cmds ++ [GLCmd.bindProgram shader.program] }

/-- `WebGLPipeline.setShader(shader, setAttributes)`: when the given
shader differs from `currentShader`, or the renderer's current program
differs from `currentShader.program`, flush, reset textures, rebind the
pipeline's vertex buffer, bind the new shader and record it as current;
otherwise do nothing.  `setAttributes` only forwards to the bind call
and has no further observable effect in this model. -/
def setShader (st : PState) (shader : WebGLShader) (_setAttributes : Bool) :
    PState :=
  if shader ≠ st.currentShader ∨ st.currentProgram ≠ st.currentShader.program then
    let st := flush st
    let st := { st with
      cmds := st.cmds ++ [GLCmd.resetTextures, GLCmd.setVertexBuffer] }
    let st := bindShaderProgram st shader
    { st with currentShader := shader }
  else
    st

/-- The configuration/renderer inputs that `boot` reads.  The shader
list stands for the result of `setShadersFromConfig` (the `WebGLShader`
constructor is outside this repository slice); it is non-empty in the
code since an empty `shaders` config entry yields one default shader. -/
structure BootConfig where
  /-- config `vertexCapacity`, when present -/
  vertexCapacityCfg : Option ℕ
  /-- byte length of a config-supplied `vertices` ArrayBuffer, when present -/
  verticesCfg : Option ℕ
  /-- the shader units produced by `setShadersFromConfig` -/
  shaderList : List WebGLShader
  /-- config `target` -/
  target : Bool
  /-- `this.targetScale` -/
  targetScale : ℚ
  /-- `renderer.width`, `renderer.height` -/
  rendererWidth : ℚ
  rendererHeight : ℚ
  /-- `renderer.config.batchSize` -/
  batchSize : ℕ

/-- The largest `vertexSize` over a shader list, by the `boot` loop. -/
def maxVertexSize (l : List WebGLShader) : ℕ :=
  l.foldl (fun m s => if s.vertexSize > m then s.vertexSize else m) 0

/-- The largest `vertexComponentCount` over a shader list, by the
`boot` loop. -/
def maxVertexComponentCount (l : List WebGLShader) : ℕ :=
  l.foldl (fun m s => if s.vertexComponentCount > m then s.vertexComponentCount else m) 0

/-- `WebGLPipeline.boot()`: optionally allocate the render target,
install the shader list (first shader current), take the largest vertex
size / component count over all shaders, set
`vertexCapacity = (config vertexCapacity or batchSize) * vertexComponentCount`,
take the config `vertices` buffer or allocate
`vertexCapacity * vertexSize` bytes, create the GPU vertex buffer, bind
the vertex buffer and the current shader, and set `hasBooted`.  The
method performs no `hasBooted` check of its own. -/
def boot (cfg : BootConfig) (st : PState) : PState :=
  let w := cfg.rendererWidth * cfg.targetScale
  let h := cfg.rendererHeight * cfg.targetScale
  let st :=
    if cfg.target ∧ 0 < w ∧ 0 < h then
      { st with cmds := st.cmds ++ [GLCmd.createTexture w h, GLCmd.createFramebuffer w h] }
    else
      st
  let st := { st with
    shaders := cfg.shaderList
    currentShader := cfg.shaderList.headI }
  let vertexSize := maxVertexSize st.shaders
  let vcc := maxVertexComponentCount st.shaders
  let vertexCapacity := cfg.vertexCapacityCfg.getD cfg.batchSize * vcc
  let dataLen := cfg.verticesCfg.getD (vertexCapacity * vertexSize)
  let st := { st with
    vertexCapacity := vertexCapacity
    vertexDataLen := dataLen
    vbuf := fun _ => Slot.uninit
    cmds := st.cmds ++ [GLCmd.createVertexBuffer dataLen, GLCmd.setVertexBuffer] }
  let st := bindShaderProgram st st.currentShader
  { st with hasBooted := true }

/-- One public append operation, for reasoning about arbitrary
interleavings of `batchQuad` and `batchTri` calls. -/
inductive BatchOp where
  | quad (x0 y0 x1 y1 x2 y2 x3 y3 u0 v0 u1 v1 : ℚ)
      (tintTL tintTR tintBL tintBR : ℕ) (tintEffect : ℚ) (texture : ℕ)
      (unitArg : Option ℕ)
  | tri (x0 y0 x1 y1 x2 y2 u0 v0 u1 v1 : ℚ)
      (tintTL tintTR tintBL : ℕ) (tintEffect : ℚ) (texture : ℕ)
      (unitArg : Option ℕ)

/-- Run one `BatchOp` on the pipeline state. -/
def applyOp (st : PState) : BatchOp → PState
  | .quad x0 y0 x1 y1 x2 y2 x3 y3 u0 v0 u1 v1 tTL tTR tBL tBR te tex un =>
      (batchQuad st x0 y0 x1 y1 x2 y2 x3 y3 u0 v0 u1 v1 tTL tTR tBL tBR te tex un).1
  | .tri x0 y0 x1 y1 x2 y2 u0 v0 u1 v1 tTL tTR tBL te tex un =>
      (batchTri st x0 y0 x1 y1 x2 y2 u0 v0 u1 v1 tTL tTR tBL te tex un).1

/-- Run a sequence of `BatchOp`s. -/
def applyOps (st : PState) (ops : List BatchOp) : PState :=
  ops.foldl applyOp st

/-- Run a sequence of raw `batchVert` calls given by their argument
records. -/
def applyVerts (st : PState) (l : List VertRec) : PState :=
  l.foldl (fun s a => batchVert s a.x a.y a.u a.v a.unit a.tintEffect a.tint) st

/-! ### Sample data for witnesses -/

/-- A sample shader unit: 28-byte vertices of 7 components. -/
def shader7 : WebGLShader := ⟨0, 100, 28, 7⟩

/-- A sample booted pipeline state with capacity 12 vertices. -/
def sampleState : PState :=
  { vertexCount := 0
    vertexCapacity := 12
    vertexDataLen := 336
    shaders := [shader7]
    currentShader := shader7
    currentProgram := 100
    currentUnit := 0
    topology := 4
    hasBooted := true
    whiteTexture := 9
    vbuf := fun _ => Slot.uninit
    vlog := []
    cmds := []
    texUnits := [] }

/-- `sampleState` holding a partial batch of 6 vertices. -/
def sampleState6 : PState := { sampleState with vertexCount := 6 }

/-- A freshly constructed (unbooted) pipeline state. -/
def initialState : PState :=
  { vertexCount := 0
    vertexCapacity := 0
    vertexDataLen := 0
    shaders := []
    currentShader := default
    currentProgram := 0
    currentUnit := 0
    topology := 4
    hasBooted := false
    whiteTexture := 9
    vbuf := fun _ => Slot.uninit
    vlog := []
    cmds := []
    texUnits := [] }

/-- A sample boot configuration with a configured vertex capacity of 1
and a single 7-component shader. -/
def cfgOne : BootConfig :=
  { vertexCapacityCfg := some 1
    verticesCfg := none
    shaderList := [shader7]
    target := false
    targetScale := 1
    rendererWidth := 800
    rendererHeight := 600
    batchSize := 4096 }

/-! ### Basic lemmas about the primitive operations -/

lemma batchVert_vertexCount (st : PState) (x y u v : ℚ) (un : ℕ) (te : ℚ)
    (t : ℕ) : (batchVert st x y u v un te t).vertexCount = st.vertexCount + 1 :=
  rfl

lemma batchVert_vertexCapacity (st : PState) (x y u v : ℚ) (un : ℕ) (te : ℚ)
    (t : ℕ) : (batchVert st x y u v un te t).vertexCapacity = st.vertexCapacity :=
  rfl

lemma batchVert_vlog (st : PState) (x y u v : ℚ) (un : ℕ) (te : ℚ) (t : ℕ) :
    (batchVert st x y u v un te t).vlog = st.vlog ++ [⟨x, y, u, v, un, te, t⟩] :=
  rfl

lemma batchVert_cmds (st : PState) (x y u v : ℚ) (un : ℕ) (te : ℚ) (t : ℕ) :
    (batchVert st x y u v un te t).cmds = st.cmds :=
  rfl

lemma flush_vertexCount (st : PState) : (flush st).vertexCount = 0 := by
  unfold flush
  split
  · rfl
  · omega

lemma flush_vertexCapacity (st : PState) :
    (flush st).vertexCapacity = st.vertexCapacity := by
  unfold flush; split <;> rfl

lemma flush_vlog (st : PState) : (flush st).vlog = st.vlog := by
  unfold flush; split <;> rfl

lemma flush_currentShader (st : PState) :
    (flush st).currentShader = st.currentShader := by
  unfold flush; split <;> rfl

lemma flush_of_zero (st : PState) (h : st.vertexCount = 0) : flush st = st := by
  unfold flush
  rw [if_neg]
  omega

lemma flush_cmds_of_pos (st : PState) (h : 0 < st.vertexCount) :
    (flush st).cmds = st.cmds ++
      [if st.vertexCount = st.vertexCapacity then GLCmd.bufferData st.vertexDataLen
        else GLCmd.bufferSubData (st.vertexCount * st.currentShader.vertexSize),
       GLCmd.drawArrays st.topology 0 st.vertexCount] := by
  unfold flush
  rw [if_pos h]

lemma setTexture2D_vertexCount (st : PState) (tex : ℕ) :
    (setTexture2D st tex).2.vertexCount = st.vertexCount := by
  dsimp only [setTexture2D]
  split <;> rfl

lemma setTexture2D_vertexCapacity (st : PState) (tex : ℕ) :
    (setTexture2D st tex).2.vertexCapacity = st.vertexCapacity := by
  dsimp only [setTexture2D]
  split <;> rfl

lemma setTexture2D_vlog (st : PState) (tex : ℕ) :
    (setTexture2D st tex).2.vlog = st.vlog := by
  dsimp only [setTexture2D]
  split <;> rfl

lemma setTexture2D_cmds_mem (st : PState) (tex : ℕ) (c : GLCmd)
    (h : c ∈ st.cmds) : c ∈ (setTexture2D st tex).2.cmds := by
  dsimp only [setTexture2D]
  split
  · exact h
  · exact List.mem_append_left _ h

/-- The state on which `batchQuad`/`batchTri` append their vertices:
unchanged when no flush is needed, else flushed with the texture
rebound. -/
lemma batchQuad_fst_eq (st : PState) (x0 y0 x1 y1 x2 y2 x3 y3 u0 v0 u1 v1 : ℚ)
    (tTL tTR tBL tBR : ℕ) (te : ℚ) (tex : ℕ) (un : Option ℕ) :
    (batchQuad st x0 y0 x1 y1 x2 y2 x3 y3 u0 v0 u1 v1 tTL tTR tBL tBR te tex un)
      = (let w := if shouldFlush st (some 6) then (setTexture2D (flush st) tex).1
            else un.getD st.currentUnit
         let st1 := if shouldFlush st (some 6) then (setTexture2D (flush st) tex).2 else st
         let st1 := batchVert st1 x0 y0 u0 v0 w te tTL
         let st1 := batchVert st1 x1 y1 u0 v1 w te tBL
         let st1 := batchVert st1 x2 y2 u1 v1 w te tBR
         let st1 := batchVert st1 x0 y0 u0 v0 w te tTL
         let st1 := batchVert st1 x2 y2 u1 v1 w te tBR
         let st1 := batchVert st1 x3 y3 u1 v0 w te tTR
         (st1, shouldFlush st (some 6))) :=
  rfl

/-- `batchTri` analogue of `batchQuad_fst_eq`. -/
lemma batchTri_fst_eq (st : PState) (x0 y0 x1 y1 x2 y2 u0 v0 u1 v1 : ℚ)
    (tTL tTR tBL : ℕ) (te : ℚ) (tex : ℕ) (un : Option ℕ) :
    (batchTri st x0 y0 x1 y1 x2 y2 u0 v0 u1 v1 tTL tTR tBL te tex un)
      = (let w := if shouldFlush st (some 3) then (setTexture2D (flush st) tex).1
            else un.getD st.currentUnit
         let st1 := if shouldFlush st (some 3) then (setTexture2D (flush st) tex).2 else st
         let st1 := batchVert st1 x0 y0 u0 v0 w te tTL
         let st1 := batchVert st1 x1 y1 u0 v1 w te tTR
         let st1 := batchVert st1 x2 y2 u1 v1 w te tBL
         (st1, shouldFlush st (some 3))) :=
  rfl

lemma shouldFlush_true_iff (st : PState) (a : ℕ) :
    shouldFlush st (some a) = true ↔ st.vertexCapacity ≤ st.vertexCount + a := by
  simp [shouldFlush]

lemma batchQuad_fst_vertexCount (st : PState)
    (x0 y0 x1 y1 x2 y2 x3 y3 u0 v0 u1 v1 : ℚ) (tTL tTR tBL tBR : ℕ)
    (te : ℚ) (tex : ℕ) (un : Option ℕ) :
    (batchQuad st x0 y0 x1 y1 x2 y2 x3 y3 u0 v0 u1 v1 tTL tTR tBL tBR te tex un).1.vertexCount
      = (if shouldFlush st (some 6) = true then 0 else st.vertexCount) + 6 := by
  rw [batchQuad_fst_eq]
  dsimp only
  cases hf : shouldFlush st (some 6) <;>
    simp [hf, batchVert_vertexCount, setTexture2D_vertexCount, flush_vertexCount]

lemma batchQuad_fst_vertexCapacity (st : PState)
    (x0 y0 x1 y1 x2 y2 x3 y3 u0 v0 u1 v1 : ℚ) (tTL tTR tBL tBR : ℕ)
    (te : ℚ) (tex : ℕ) (un : Option ℕ) :
    (batchQuad st x0 y0 x1 y1 x2 y2 x3 y3 u0 v0 u1 v1 tTL tTR tBL tBR te tex un).1.vertexCapacity
      = st.vertexCapacity := by
  rw [batchQuad_fst_eq]
  dsimp only
  cases hf : shouldFlush st (some 6) <;>
    simp [hf, batchVert_vertexCapacity, setTexture2D_vertexCapacity,
      flush_vertexCapacity]

lemma batchTri_fst_vertexCount (st : PState) (x0 y0 x1 y1 x2 y2 u0 v0 u1 v1 : ℚ)
    (tTL tTR tBL : ℕ) (te : ℚ) (tex : ℕ) (un : Option ℕ) :
    (batchTri st x0 y0 x1 y1 x2 y2 u0 v0 u1 v1 tTL tTR tBL te tex un).1.vertexCount
      = (if shouldFlush st (some 3) = true then 0 else st.vertexCount) + 3 := by
  rw [batchTri_fst_eq]
  dsimp only
  cases hf : shouldFlush st (some 3) <;>
    simp [hf, batchVert_vertexCount, setTexture2D_vertexCount, flush_vertexCount]

lemma batchTri_fst_vertexCapacity (st : PState) (x0 y0 x1 y1 x2 y2 u0 v0 u1 v1 : ℚ)
    (tTL tTR tBL : ℕ) (te : ℚ) (tex : ℕ) (un : Option ℕ) :
    (batchTri st x0 y0 x1 y1 x2 y2 u0 v0 u1 v1 tTL tTR tBL te tex un).1.vertexCapacity
      = st.vertexCapacity := by
  rw [batchTri_fst_eq]
  dsimp only
  cases hf : shouldFlush st (some 3) <;>
    simp [hf, batchVert_vertexCapacity, setTexture2D_vertexCapacity,
      flush_vertexCapacity]

lemma batchQuad_fst_vlog (st : PState) (x0 y0 x1 y1 x2 y2 x3 y3 u0 v0 u1 v1 : ℚ)
    (tTL tTR tBL tBR : ℕ) (te : ℚ) (tex : ℕ) (un : Option ℕ) :
    ∃ w, (batchQuad st x0 y0 x1 y1 x2 y2 x3 y3 u0 v0 u1 v1 tTL tTR tBL tBR te tex un).1.vlog
      = st.vlog ++
        [⟨x0, y0, u0, v0, w, te, tTL⟩, ⟨x1, y1, u0, v1, w, te, tBL⟩,
         ⟨x2, y2, u1, v1, w, te, tBR⟩, ⟨x0, y0, u0, v0, w, te, tTL⟩,
         ⟨x2, y2, u1, v1, w, te, tBR⟩, ⟨x3, y3, u1, v0, w, te, tTR⟩] := by
  rw [batchQuad_fst_eq]
  dsimp only
  cases hf : shouldFlush st (some 6)
  · exact ⟨un.getD st.currentUnit, by simp [batchVert_vlog]⟩
  · refine ⟨(setTexture2D (flush st) tex).1, ?_⟩
    simp [batchVert_vlog, setTexture2D_vlog, flush_vlog]

lemma applyOp_vertexCapacity (st : PState) (op : BatchOp) :
    (applyOp st op).vertexCapacity = st.vertexCapacity := by
  cases op with
  | quad x0 y0 x1 y1 x2 y2 x3 y3 u0 v0 u1 v1 tTL tTR tBL tBR te tex un =>
      exact batchQuad_fst_vertexCapacity ..
  | tri x0 y0 x1 y1 x2 y2 u0 v0 u1 v1 tTL tTR tBL te tex un =>
      exact batchTri_fst_vertexCapacity ..

lemma applyOp_count_le (st : PState) (op : BatchOp)
    (h6 : 6 ≤ st.vertexCapacity) (_hle : st.vertexCount ≤ st.vertexCapacity) :
    (applyOp st op).vertexCount ≤ st.vertexCapacity := by
  cases op with
  | quad x0 y0 x1 y1 x2 y2 x3 y3 u0 v0 u1 v1 tTL tTR tBL tBR te tex un =>
      show (batchQuad ..).1.vertexCount ≤ st.vertexCapacity
      rw [batchQuad_fst_vertexCount]
      by_cases hf : shouldFlush st (some 6) = true
      · simp only [hf, if_true]
        omega
      · have := (shouldFlush_true_iff st 6).not.mp hf
        simp only [hf, if_neg]
        simp only [Bool.not_eq_true] at hf
        simp only [hf, Bool.false_eq_true, if_false]
        omega
  | tri x0 y0 x1 y1 x2 y2 u0 v0 u1 v1 tTL tTR tBL te tex un =>
      show (batchTri ..).1.vertexCount ≤ st.vertexCapacity
      rw [batchTri_fst_vertexCount]
      by_cases hf : shouldFlush st (some 3) = true
      · simp only [hf, if_true]
        omega
      · have := (shouldFlush_true_iff st 3).not.mp hf
        simp only [Bool.not_eq_true] at hf
        simp only [hf, Bool.false_eq_true, if_false]
        omega

lemma applyOps_inv (ops : List BatchOp) : ∀ st : PState,
    6 ≤ st.vertexCapacity → st.vertexCount ≤ st.vertexCapacity →
    (applyOps st ops).vertexCount ≤ (applyOps st ops).vertexCapacity
    ∧ (applyOps st ops).vertexCapacity = st.vertexCapacity := by
  induction ops with
  | nil =>
      intro st h6 hle
      exact ⟨hle, rfl⟩
  | cons op ops ih =>
      intro st h6 hle
      have hstep : applyOps st (op :: ops) = applyOps (applyOp st op) ops := rfl
      have hcap := applyOp_vertexCapacity st op
      have hcnt := applyOp_count_le st op h6 hle
      have hrec := ih (applyOp st op) (by omega) (by omega)
      rw [hstep]
      exact ⟨hrec.1, hrec.2.trans hcap⟩

lemma applyVerts_vertexCount (l : List VertRec) : ∀ st : PState,
    (applyVerts st l).vertexCount = st.vertexCount + l.length := by
  induction l with
  | nil =>
      intro st
      simp [applyVerts]
  | cons a l ih =>
      intro st
      have hstep : applyVerts st (a :: l)
          = applyVerts (batchVert st a.x a.y a.u a.v a.unit a.tintEffect a.tint) l :=
        rfl
      rw [hstep, ih, batchVert_vertexCount]
      simp
      omega

/-! ### Lemmas about the `boot` maximum computation -/

lemma foldl_max_ge (f : WebGLShader → ℕ) (l : List WebGLShader) :
    ∀ a : ℕ, a ≤ l.foldl (fun m s => if f s > m then f s else m) a
      ∧ ∀ s ∈ l, f s ≤ l.foldl (fun m s => if f s > m then f s else m) a := by
  induction l with
  | nil =>
      intro a
      exact ⟨le_refl a, by simp⟩
  | cons s l ih =>
      intro a
      have hstep : a ≤ (if f s > a then f s else a)
          ∧ f s ≤ (if f s > a then f s else a) := by
        constructor <;> split <;> omega
      have hrec := ih (if f s > a then f s else a)
      refine ⟨le_trans hstep.1 hrec.1, ?_⟩
      intro s2 hs2
      rcases List.mem_cons.mp hs2 with h | h
      · subst h
        exact le_trans hstep.2 hrec.1
      · exact hrec.2 s2 h

lemma foldl_max_attained (f : WebGLShader → ℕ) (l : List WebGLShader) :
    ∀ a : ℕ, l.foldl (fun m s => if f s > m then f s else m) a = a
      ∨ l.foldl (fun m s => if f s > m then f s else m) a ∈ l.map f := by
  induction l with
  | nil =>
      intro a
      exact Or.inl rfl
  | cons s l ih =>
      intro a
      have hstep : List.foldl (fun m s => if f s > m then f s else m) a (s :: l)
          = List.foldl (fun m s => if f s > m then f s else m)
              (if f s > a then f s else a) l := rfl
      rcases ih (if f s > a then f s else a) with h | h
      · by_cases hgt : f s > a
        · right
          rw [hstep, h, if_pos hgt]
          simp
        · left
          rw [hstep, h, if_neg hgt]
      · right
        rw [hstep]
        simp only [List.map_cons, List.mem_cons]
        exact Or.inr h

lemma foldl_max_mem (f : WebGLShader → ℕ) (l : List WebGLShader)
    (hne : l ≠ []) :
    l.foldl (fun m s => if f s > m then f s else m) 0 ∈ l.map f := by
  rcases foldl_max_attained f l 0 with h | h
  · rcases l with _ | ⟨s, l⟩
    · exact absurd rfl hne
    · have hle := (foldl_max_ge f (s :: l) 0).2 s (by simp)
      rw [h] at hle ⊢
      have hz : f s = 0 := Nat.le_zero.mp hle
      simp only [List.map_cons, List.mem_cons]
      exact Or.inl hz.symm
  · exact h

lemma boot_vertexCapacity (cfg : BootConfig) (st : PState) :
    (boot cfg st).vertexCapacity
      = cfg.vertexCapacityCfg.getD cfg.batchSize
          * maxVertexComponentCount cfg.shaderList := by
  rfl

lemma boot_vertexDataLen (cfg : BootConfig) (st : PState) :
    (boot cfg st).vertexDataLen
      = cfg.verticesCfg.getD
          ((boot cfg st).vertexCapacity * maxVertexSize cfg.shaderList) := by
  rfl

lemma boot_currentShader (cfg : BootConfig) (st : PState) :
    (boot cfg st).currentShader = cfg.shaderList.headI := by
  rfl

lemma boot_currentProgram (cfg : BootConfig) (st : PState) :
    (boot cfg st).currentProgram = cfg.shaderList.headI.program := by
  rfl

lemma boot_hasBooted (cfg : BootConfig) (st : PState) :
    (boot cfg st).hasBooted = true := by
  rfl

lemma boot_cmds (cfg : BootConfig) (st : PState) :
    ∃ tail : List GLCmd, (boot cfg st).cmds = st.cmds ++ tail
      ∧ GLCmd.createVertexBuffer ((boot cfg st).vertexDataLen) ∈ tail := by
  unfold boot bindShaderProgram
  dsimp only
  split
  · refine ⟨[GLCmd.createTexture (cfg.rendererWidth * cfg.targetScale)
        (cfg.rendererHeight * cfg.targetScale),
      GLCmd.createFramebuffer (cfg.rendererWidth * cfg.targetScale)
        (cfg.rendererHeight * cfg.targetScale),
      GLCmd.createVertexBuffer (cfg.verticesCfg.getD
        (cfg.vertexCapacityCfg.getD cfg.batchSize * maxVertexComponentCount cfg.shaderList
          * maxVertexSize cfg.shaderList)),
      GLCmd.setVertexBuffer,
      GLCmd.bindProgram cfg.shaderList.headI.program], ?_, ?_⟩
    · simp
    · simp
  · refine ⟨[GLCmd.createVertexBuffer (cfg.verticesCfg.getD
        (cfg.vertexCapacityCfg.getD cfg.batchSize * maxVertexComponentCount cfg.shaderList
          * maxVertexSize cfg.shaderList)),
      GLCmd.setVertexBuffer,
      GLCmd.bindProgram cfg.shaderList.headI.program], ?_, ?_⟩
    · simp
    · simp

/-- The six vertex records appended by one `drawFillRect` call. -/
lemma drawFillRect_vlog (st : PState) (x y width height : ℚ) (color : ℕ)
    (alpha : ℚ) (texArg : Option ℕ) (flip : Bool) :
    ∃ w, (drawFillRect st x y width height color alpha texArg (some flip)).vlog
      = st.vlog ++
        [⟨(⌊x⌋ : ℚ), (⌊y⌋ : ℚ), 0, if flip then 1 else 0, w, 0,
            getTintAppendFloatAlphaAndSwap color alpha⟩,
         ⟨(⌊x⌋ : ℚ), (⌊(⌊y⌋ : ℚ) + height⌋ : ℚ), 0, if flip then 0 else 1, w, 0,
            getTintAppendFloatAlphaAndSwap color alpha⟩,
         ⟨(⌊(⌊x⌋ : ℚ) + width⌋ : ℚ), (⌊(⌊y⌋ : ℚ) + height⌋ : ℚ), 1,
            if flip then 0 else 1, w, 0, getTintAppendFloatAlphaAndSwap color alpha⟩,
         ⟨(⌊x⌋ : ℚ), (⌊y⌋ : ℚ), 0, if flip then 1 else 0, w, 0,
            getTintAppendFloatAlphaAndSwap color alpha⟩,
         ⟨(⌊(⌊x⌋ : ℚ) + width⌋ : ℚ), (⌊(⌊y⌋ : ℚ) + height⌋ : ℚ), 1,
            if flip then 0 else 1, w, 0, getTintAppendFloatAlphaAndSwap color alpha⟩,
         ⟨(⌊(⌊x⌋ : ℚ) + width⌋ : ℚ), (⌊y⌋ : ℚ), 1, if flip then 1 else 0, w, 0,
            getTintAppendFloatAlphaAndSwap color alpha⟩] := by
  unfold drawFillRect
  dsimp only [Option.getD]
  obtain ⟨w, hw⟩ := batchQuad_fst_vlog
    ((setTexture2D st (texArg.getD st.whiteTexture)).2)
    (⌊x⌋ : ℚ) (⌊y⌋ : ℚ)
    (⌊x⌋ : ℚ) (⌊(⌊y⌋ : ℚ) + height⌋ : ℚ)
    (⌊(⌊x⌋ : ℚ) + width⌋ : ℚ) (⌊(⌊y⌋ : ℚ) + height⌋ : ℚ)
    (⌊(⌊x⌋ : ℚ) + width⌋ : ℚ) (⌊y⌋ : ℚ)
    0 (if flip then 1 else 0) 1 (if flip then 0 else 1)
    (getTintAppendFloatAlphaAndSwap color alpha)
    (getTintAppendFloatAlphaAndSwap color alpha)
    (getTintAppendFloatAlphaAndSwap color alpha)
    (getTintAppendFloatAlphaAndSwap color alpha)
    0 (texArg.getD st.whiteTexture)
    (some (setTexture2D st (texArg.getD st.whiteTexture)).1)
  exact ⟨w, hw.trans (by rw [setTexture2D_vlog])⟩

/-! ### Claim theorems -/

/-- **C3**: for every pipeline state and every `amount` (including an
omitted `amount`, which defaults to 0), `shouldFlush(amount)` returns
`true` iff `vertexCount + amount >= vertexCapacity`. -/
theorem shouldFlush_iff (st : PState) (amount : ℕ) :
    (shouldFlush st (some amount) = true ↔
      st.vertexCount + amount ≥ st.vertexCapacity)
    ∧ shouldFlush st none = shouldFlush st (some 0) := by
  constructor
  · simp [shouldFlush]
  · rfl

/-- Witness for **C3** at `vertexCount = 0`, `vertexCapacity = 12`,
`amount = 12`. -/
theorem shouldFlush_iff_witness : shouldFlush sampleState (some 12) = true :=
  (shouldFlush_iff sampleState 12).1.mpr (by decide)

/-- **C5**: `flush()` with `vertexCount = 0` performs no GPU upload and
no draw call and leaves the pipeline state unchanged. -/
theorem flush_noop_of_zero (st : PState) (h : st.vertexCount = 0) :
    flush st = st :=
  flush_of_zero st h

/-- Witness for **C5** on a concrete empty batch. -/
theorem flush_noop_of_zero_witness : flush sampleState = sampleState :=
  flush_noop_of_zero sampleState rfl

/-- **C4**: `flush()` with `vertexCount > 0` uploads the entire backing
buffer when the batch is exactly full and only the byte range
`[0, vertexCount * vertexSize)` otherwise, issues exactly one draw call
over `vertexCount` vertices with the pipeline topology, and leaves
`vertexCount = 0`. -/
theorem flush_drains (st : PState) (h : 0 < st.vertexCount) :
    (st.vertexCount = st.vertexCapacity →
      (flush st).cmds = st.cmds ++
        [GLCmd.bufferData st.vertexDataLen,
         GLCmd.drawArrays st.topology 0 st.vertexCount])
    ∧ (st.vertexCount ≠ st.vertexCapacity →
      (flush st).cmds = st.cmds ++
        [GLCmd.bufferSubData (st.vertexCount * st.currentShader.vertexSize),
         GLCmd.drawArrays st.topology 0 st.vertexCount])
    ∧ (flush st).vertexCount = 0 := by
  refine ⟨?_, ?_, flush_vertexCount st⟩
  · intro he
    rw [flush_cmds_of_pos st h, if_pos he]
  · intro he
    rw [flush_cmds_of_pos st h, if_neg he]

/-- Witness for **C4**: a partial batch of 6 vertices of 28 bytes
uploads 168 bytes and draws 6 vertices. -/
theorem flush_drains_witness :
    (flush sampleState6).cmds =
      [GLCmd.bufferSubData 168, GLCmd.drawArrays 4 0 6] := by
  simpa using (flush_drains sampleState6 (by decide)).2.1 (by decide)

/-- **C6**: `setShader` with the currently recorded shader whose program
is already current on the device changes nothing; in every other case
the pending batch is flushed before the new shader is bound, and
`currentShader` is updated to the given shader. -/
theorem setShader_spec (st : PState) (shader : WebGLShader) (b : Bool) :
    (shader = st.currentShader → st.currentProgram = st.currentShader.program →
      setShader st shader b = st)
    ∧ ((shader ≠ st.currentShader ∨ st.currentProgram ≠ st.currentShader.program) →
      (setShader st shader b).currentShader = shader
      ∧ (setShader st shader b).currentProgram = shader.program
      ∧ (setShader st shader b).vertexCount = 0
      ∧ (setShader st shader b).cmds = (flush st).cmds ++
          [GLCmd.resetTextures, GLCmd.setVertexBuffer,
           GLCmd.bindProgram shader.program]) := by
  constructor
  · intro h1 h2
    have hc : ¬(shader ≠ st.currentShader ∨
        st.currentProgram ≠ st.currentShader.program) := by
      push_neg
      exact ⟨h1, h2⟩
    unfold setShader
    rw [if_neg hc]
  · intro h
    unfold setShader
    rw [if_pos h]
    refine ⟨rfl, rfl, ?_, ?_⟩
    · simpa [bindShaderProgram] using flush_vertexCount st
    · simp [bindShaderProgram]

/-- Witness for **C6**: setting the already-bound sample shader is the
identity. -/
theorem setShader_spec_witness : setShader sampleState shader7 true = sampleState :=
  (setShader_spec sampleState shader7 true).1 rfl rfl

/-- **C1**: from `vertexCount = 0` with `vertexCapacity >= 6`, every
sequence of `batchQuad`/`batchTri` calls keeps
`vertexCount <= vertexCapacity`; each `batchVert` call increments
`vertexCount` by exactly 1, so `N` appends after a flush leave
`vertexCount = N`. -/
theorem batch_capacity_invariant (st : PState) (ops : List BatchOp)
    (l : List VertRec) (hcap : 6 ≤ st.vertexCapacity)
    (h0 : st.vertexCount = 0) :
    (applyOps st ops).vertexCount ≤ (applyOps st ops).vertexCapacity
    ∧ (∀ (s : PState) (x y u v : ℚ) (un : ℕ) (te : ℚ) (t : ℕ),
        (batchVert s x y u v un te t).vertexCount = s.vertexCount + 1)
    ∧ (applyVerts st l).vertexCount = l.length := by
  refine ⟨(applyOps_inv ops st hcap (by omega)).1, fun s x y u v un te t => rfl, ?_⟩
  rw [applyVerts_vertexCount, h0, Nat.zero_add]

/-- Witness for **C1**: one quad then one tri on the sample state. -/
theorem batch_capacity_invariant_witness :
    (applyOps sampleState
        [BatchOp.quad 0 0 0 1 1 1 1 0 0 0 1 1 2 3 4 5 0 7 none,
         BatchOp.tri 0 0 0 1 1 1 0 0 1 1 2 3 4 0 7 none]).vertexCount
      ≤ (applyOps sampleState
        [BatchOp.quad 0 0 0 1 1 1 1 0 0 0 1 1 2 3 4 5 0 7 none,
         BatchOp.tri 0 0 0 1 1 1 0 0 1 1 2 3 4 0 7 none]).vertexCapacity :=
  (batch_capacity_invariant sampleState _ [] (by decide) rfl).1

/-- **C2**: `batchQuad` flushes first exactly when `shouldFlush(6)`
holds, returns that fact, and in all cases appends exactly the six
vertices TL, BL, BR, TL, BR, TR with UVs TL=(u0,v0), BL=(u0,v1),
BR=(u1,v1), TR=(u1,v0); without a flush the GPU command trace is
untouched, and a flush of a non-empty batch issues its draw call. -/
theorem batchQuad_spec (st : PState) (x0 y0 x1 y1 x2 y2 x3 y3 u0 v0 u1 v1 : ℚ)
    (tTL tTR tBL tBR : ℕ) (te : ℚ) (tex : ℕ) (un : Option ℕ) :
    (batchQuad st x0 y0 x1 y1 x2 y2 x3 y3 u0 v0 u1 v1 tTL tTR tBL tBR te tex un).2
      = shouldFlush st (some 6)
    ∧ (batchQuad st x0 y0 x1 y1 x2 y2 x3 y3 u0 v0 u1 v1 tTL tTR tBL tBR te tex un).1.vertexCount
      = (if shouldFlush st (some 6) = true then 0 else st.vertexCount) + 6
    ∧ (∃ w, (batchQuad st x0 y0 x1 y1 x2 y2 x3 y3 u0 v0 u1 v1 tTL tTR tBL tBR te tex un).1.vlog
      = st.vlog ++
        [⟨x0, y0, u0, v0, w, te, tTL⟩, ⟨x1, y1, u0, v1, w, te, tBL⟩,
         ⟨x2, y2, u1, v1, w, te, tBR⟩, ⟨x0, y0, u0, v0, w, te, tTL⟩,
         ⟨x2, y2, u1, v1, w, te, tBR⟩, ⟨x3, y3, u1, v0, w, te, tTR⟩])
    ∧ (shouldFlush st (some 6) = false →
      (batchQuad st x0 y0 x1 y1 x2 y2 x3 y3 u0 v0 u1 v1 tTL tTR tBL tBR te tex un).1.cmds
        = st.cmds)
    ∧ (shouldFlush st (some 6) = true → 0 < st.vertexCount →
      GLCmd.drawArrays st.topology 0 st.vertexCount ∈
        (batchQuad st x0 y0 x1 y1 x2 y2 x3 y3 u0 v0 u1 v1 tTL tTR tBL tBR te tex un).1.cmds) := by
  refine ⟨rfl, batchQuad_fst_vertexCount .., batchQuad_fst_vlog .., ?_, ?_⟩
  · intro hf
    rw [batchQuad_fst_eq]
    dsimp only
    simp [hf, batchVert_cmds]
  · intro hf hc
    rw [batchQuad_fst_eq]
    dsimp only
    simp only [hf, if_true, batchVert_cmds]
    apply setTexture2D_cmds_mem
    rw [flush_cmds_of_pos st hc]
    simp

/-- Witness for **C2**: the return value on a concrete non-flushing
call. -/
theorem batchQuad_spec_witness :
    (batchQuad sampleState 0 0 0 1 1 1 1 0 0 0 1 1 2 3 4 5 0 7 none).2
      = shouldFlush sampleState (some 6) :=
  (batchQuad_spec sampleState 0 0 0 1 1 1 1 0 0 0 1 1 2 3 4 5 0 7 none).1

/-- **C10**: `batchVert` writes exactly 7 components — x, y, u, v, unit
and tintEffect through the float view, then the raw 32-bit tint — at
element offset `vertexCount * currentShader.vertexComponentCount`,
leaves every other buffer element untouched, and increments
`vertexCount` by exactly 1; the stride comes from the shader's declared
component count while the written component count is fixed at 7. -/
theorem batchVert_writes (st : PState) (x y u v : ℚ) (un : ℕ) (te : ℚ)
    (t : ℕ) :
    (batchVert st x y u v un te t).vbuf
        (st.vertexCount * st.currentShader.vertexComponentCount) = Slot.f32 x
    ∧ (batchVert st x y u v un te t).vbuf
        (st.vertexCount * st.currentShader.vertexComponentCount + 1) = Slot.f32 y
    ∧ (batchVert st x y u v un te t).vbuf
        (st.vertexCount * st.currentShader.vertexComponentCount + 2) = Slot.f32 u
    ∧ (batchVert st x y u v un te t).vbuf
        (st.vertexCount * st.currentShader.vertexComponentCount + 3) = Slot.f32 v
    ∧ (batchVert st x y u v un te t).vbuf
        (st.vertexCount * st.currentShader.vertexComponentCount + 4) = Slot.f32 (un : ℚ)
    ∧ (batchVert st x y u v un te t).vbuf
        (st.vertexCount * st.currentShader.vertexComponentCount + 5) = Slot.f32 te
    ∧ (batchVert st x y u v un te t).vbuf
        (st.vertexCount * st.currentShader.vertexComponentCount + 6) = Slot.u32 t
    ∧ (∀ i, (i < st.vertexCount * st.currentShader.vertexComponentCount
          ∨ st.vertexCount * st.currentShader.vertexComponentCount + 7 ≤ i) →
        (batchVert st x y u v un te t).vbuf i = st.vbuf i)
    ∧ (batchVert st x y u v un te t).vertexCount = st.vertexCount + 1 := by
  unfold batchVert
  dsimp only
  refine ⟨?_, ?_, ?_, ?_, ?_, ?_, ?_, ?_, rfl⟩ <;>
    first
      | (intro i hi
         simp only [Function.update_apply, if_true]
         all_goals split_ifs <;> first | rfl | omega)
      | (simp only [Function.update_apply, if_true]
         all_goals split_ifs <;> first | rfl | omega)

/-- Witness for **C10**: the tint slot of a concrete write. -/
theorem batchVert_writes_witness :
    (batchVert sampleState 1 2 3 4 5 6 7).vbuf 6 = Slot.u32 7 :=
  (batchVert_writes sampleState 1 2 3 4 5 6 7).2.2.2.2.2.2.1

/-- **C7, counterexample**: with a configured `vertexCapacity` of 1 and
one 7-component shader, `boot` sets `vertexCapacity` to 7, not to the
configured value 1 — the configured count is multiplied by the vertex
component count. -/
theorem boot_capacity_counterexample :
    cfgOne.vertexCapacityCfg = some 1
    ∧ (boot cfgOne initialState).vertexCapacity = 7
    ∧ (7 : ℕ) ≠ 1 := by
  refine ⟨rfl, ?_, by decide⟩
  rw [boot_vertexCapacity]
  rfl

/-- **C7 (amended)**: `boot()` computes the effective vertex size and
component count as the maximum over all owned shader units, sets
`vertexCapacity` to the configured vertex-count capacity (defaulting
from the device batch-size config) multiplied by that component count,
allocates the backing buffer of `vertexCapacity * vertexSize` bytes
when no pre-built `vertices` buffer is configured, and binds the first
shader unit as current. -/
theorem boot_layout (cfg : BootConfig) (st : PState)
    (hne : cfg.shaderList ≠ []) :
    (∀ s ∈ cfg.shaderList, s.vertexSize ≤ maxVertexSize cfg.shaderList
      ∧ s.vertexComponentCount ≤ maxVertexComponentCount cfg.shaderList)
    ∧ maxVertexSize cfg.shaderList ∈ cfg.shaderList.map WebGLShader.vertexSize
    ∧ maxVertexComponentCount cfg.shaderList
        ∈ cfg.shaderList.map WebGLShader.vertexComponentCount
    ∧ (boot cfg st).vertexCapacity
        = cfg.vertexCapacityCfg.getD cfg.batchSize
            * maxVertexComponentCount cfg.shaderList
    ∧ (cfg.verticesCfg = none →
        (boot cfg st).vertexDataLen
          = (boot cfg st).vertexCapacity * maxVertexSize cfg.shaderList
        ∧ GLCmd.createVertexBuffer ((boot cfg st).vertexDataLen) ∈ (boot cfg st).cmds)
    ∧ (boot cfg st).currentShader = cfg.shaderList.headI
    ∧ (boot cfg st).currentProgram = cfg.shaderList.headI.program
    ∧ (boot cfg st).hasBooted = true := by
  refine ⟨?_, foldl_max_mem _ _ hne, foldl_max_mem _ _ hne,
    boot_vertexCapacity cfg st, ?_, boot_currentShader cfg st,
    boot_currentProgram cfg st, boot_hasBooted cfg st⟩
  · intro s hs
    exact ⟨(foldl_max_ge WebGLShader.vertexSize cfg.shaderList 0).2 s hs,
      (foldl_max_ge WebGLShader.vertexComponentCount cfg.shaderList 0).2 s hs⟩
  · intro hv
    constructor
    · rw [boot_vertexDataLen, hv, boot_vertexCapacity]
      rfl
    · obtain ⟨tail, htail, hmem⟩ := boot_cmds cfg st
      rw [htail]
      exact List.mem_append_right _ hmem

/-- Witness for **C7 (amended)**: the capacity equation on the sample
configuration. -/
theorem boot_layout_witness :
    (boot cfgOne initialState).vertexCapacity
      = cfgOne.vertexCapacityCfg.getD cfgOne.batchSize
          * maxVertexComponentCount cfgOne.shaderList :=
  (boot_layout cfgOne initialState (by decide)).2.2.2.1

/-- **C8, counterexample**: `boot()` contains no `hasBooted` guard —
after a first boot completes (`hasBooted = true`), a second direct call
runs the allocation again, so the vertex-buffer creation command is
issued twice. -/
theorem boot_reboot_counterexample :
    (boot cfgOne initialState).hasBooted = true
    ∧ (boot cfgOne (boot cfgOne initialState)).cmds.count
        (GLCmd.createVertexBuffer 196) = 2 := by
  constructor
  · rfl
  · decide

/-- **C8 (amended)**: `boot()` sets `hasBooted` on completion but never
checks it: called on an already-booted pipeline it still re-runs the
GPU allocation (a fresh vertex-buffer creation command is appended), so
preventing a double boot is the caller's responsibility. -/
theorem boot_no_guard (cfg : BootConfig) (st : PState)
    (_h : st.hasBooted = true) :
    (boot cfg st).hasBooted = true
    ∧ ∃ tail, (boot cfg st).cmds = st.cmds ++ tail
        ∧ GLCmd.createVertexBuffer ((boot cfg st).vertexDataLen) ∈ tail :=
  ⟨boot_hasBooted cfg st, boot_cmds cfg st⟩

/-- Witness for **C8 (amended)** on an already-booted sample state. -/
theorem boot_no_guard_witness : (boot cfgOne sampleState).hasBooted = true :=
  (boot_no_guard cfgOne sampleState rfl).1

/-- **C9, counterexample**: at `x = 1/2`, `width = 1/2` the right edge
of the emitted quad is `floor(floor(x) + width) = 0`, not
`floor(x + width) = 1`: the claim's flooring of `x + width` does not
match the code, which floors `x` first. -/
theorem drawFillRect_counterexample :
    (drawFillRect sampleState (1/2 : ℚ) 0 (1/2 : ℚ) 1 255 1 none
        (some true)).vlog.map VertRec.x = [0, 0, 0, 0, 0, 0]
    ∧ (⌊(1/2 : ℚ) + (1/2 : ℚ)⌋ : ℚ) = 1
    ∧ (0 : ℚ) ≠ 1 := by
  obtain ⟨w, hw⟩ := drawFillRect_vlog sampleState (1/2) 0 (1/2) 1 255 1 none true
  have h0 : ⌊(1/2 : ℚ)⌋ = 0 := by
    rw [Int.floor_eq_iff]
    norm_num
  refine ⟨?_, ?_, by norm_num⟩
  · rw [hw]
    simp [sampleState, h0]
    norm_num [h0]
  · rw [show (1/2 : ℚ) + 1/2 = 1 by norm_num]
    norm_num

/-- **C9 (amended)**: `drawFillRect` floors `x` and `y`, computes the
far corner as `floor(floor(x) + width)`, `floor(floor(y) + height)`
(which equals flooring `x + width` and `y + height` whenever `x` and
`y` are integral), and emits exactly one `batchQuad` for that
rectangle with UVs (0,0)-(1,1) when `flipUV` is false and `v0 = 1`,
`v1 = 0` when `flipUV` is true; in particular
`drawFillRect(10, 20, 30, 40, color, 1.0)` with `flipUV = true`
produces the quad with corners (10,20)-(40,60) and `v0 = 1`,
`v1 = 0`. -/
theorem drawFillRect_floors (st : PState) (x y width height : ℚ) (color : ℕ)
    (alpha : ℚ) (texArg : Option ℕ) (flip : Bool) :
    (∃ w, (drawFillRect st x y width height color alpha texArg (some flip)).vlog
      = st.vlog ++
        [⟨(⌊x⌋ : ℚ), (⌊y⌋ : ℚ), 0, if flip then 1 else 0, w, 0,
            getTintAppendFloatAlphaAndSwap color alpha⟩,
         ⟨(⌊x⌋ : ℚ), (⌊(⌊y⌋ : ℚ) + height⌋ : ℚ), 0, if flip then 0 else 1, w, 0,
            getTintAppendFloatAlphaAndSwap color alpha⟩,
         ⟨(⌊(⌊x⌋ : ℚ) + width⌋ : ℚ), (⌊(⌊y⌋ : ℚ) + height⌋ : ℚ), 1,
            if flip then 0 else 1, w, 0, getTintAppendFloatAlphaAndSwap color alpha⟩,
         ⟨(⌊x⌋ : ℚ), (⌊y⌋ : ℚ), 0, if flip then 1 else 0, w, 0,
            getTintAppendFloatAlphaAndSwap color alpha⟩,
         ⟨(⌊(⌊x⌋ : ℚ) + width⌋ : ℚ), (⌊(⌊y⌋ : ℚ) + height⌋ : ℚ), 1,
            if flip then 0 else 1, w, 0, getTintAppendFloatAlphaAndSwap color alpha⟩,
         ⟨(⌊(⌊x⌋ : ℚ) + width⌋ : ℚ), (⌊y⌋ : ℚ), 1, if flip then 1 else 0, w, 0,
            getTintAppendFloatAlphaAndSwap color alpha⟩])
    ∧ (∃ w, (drawFillRect sampleState 10 20 30 40 255 1 none (some true)).vlog
      = [⟨10, 20, 0, 1, w, 0, getTintAppendFloatAlphaAndSwap 255 1⟩,
         ⟨10, 60, 0, 0, w, 0, getTintAppendFloatAlphaAndSwap 255 1⟩,
         ⟨40, 60, 1, 0, w, 0, getTintAppendFloatAlphaAndSwap 255 1⟩,
         ⟨10, 20, 0, 1, w, 0, getTintAppendFloatAlphaAndSwap 255 1⟩,
         ⟨40, 60, 1, 0, w, 0, getTintAppendFloatAlphaAndSwap 255 1⟩,
         ⟨40, 20, 1, 1, w, 0, getTintAppendFloatAlphaAndSwap 255 1⟩]) := by
  obtain ⟨w, hw⟩ := drawFillRect_vlog sampleState 10 20 30 40 255 1 none true
  refine ⟨drawFillRect_vlog st x y width height color alpha texArg flip, ⟨w, ?_⟩⟩
  rw [hw]
  norm_num [sampleState]

end PhaserWebGL
